import Mathlib

/-!
A formal model of the mobilpy MobilPay payment-gateway client
(`mobilpy/__init__.py`).  Byte strings are modelled as `List Nat` (each
element a byte value below 256), XML element trees as an inductive type
mirroring `xml.etree.ElementTree.Element`, and Python exceptions as an
explicit error type.  The external cryptographic primitive (PyCryptodome
RSA PKCS#1 v1.5) is modelled as an abstract key pair, while the RC4
stream cipher, base64 coding, percent decoding and UTF-8 serialisation
are modelled concretely, following the behaviour of the libraries the
source calls.
-/

namespace Mobilpy

/-- An XML element: tag, attribute list (in insertion order), optional
text content and child elements, mirroring `xml.etree.ElementTree.Element`. -/
inductive XML where
  | elem : String → List (String × String) → Option String → List XML → XML

/-- The tag of an element. -/
def XML.tag : XML → String
  | XML.elem t _ _ _ => t

/-- The attribute list of an element. -/
def XML.attrs : XML → List (String × String)
  | XML.elem _ a _ _ => a

/-- The text content of an element (`None` is modelled as `none`). -/
def XML.text : XML → Option String
  | XML.elem _ _ tx _ => tx

/-- The children of an element. -/
def XML.children : XML → List XML
  | XML.elem _ _ _ c => c

/-- Escaping of text content as performed by `ElementTree` when writing
a document: ampersand, less-than and greater-than are replaced. -/
def escChar (c : Char) : String :=
  if c = '&' then "&amp;"
  else if c = '<' then "&lt;"
  else if c = '>' then "&gt;"
  else String.singleton c

/-- Escape the text content of an element. -/
def escText (s : String) : String :=
  String.join (s.data.map escChar)

/-- Escaping of attribute values as performed by `ElementTree`:
ampersand, angle brackets, double quote and whitespace control
characters are replaced. -/
def escAttrChar (c : Char) : String :=
  if c = '&' then "&amp;"
  else if c = '<' then "&lt;"
  else if c = '>' then "&gt;"
  else if c = '\x22' then "&quot;"
  else if c = '\x0d' then "&#13;"
  else if c = '\x0a' then "&#10;"
  else if c = '\x09' then "&#09;"
  else String.singleton c

/-- Escape an attribute value. -/
def escAttr (s : String) : String :=
  String.join (s.data.map escAttrChar)

/-- Render an attribute list as written inside a start tag. -/
def attrsString (attrs : List (String × String)) : String :=
  String.join (attrs.map (fun p => " " ++ p.1 ++ "=\x22" ++ escAttr p.2 ++ "\x22"))

/-- Python truthiness of an element's text: `None` and the empty string
are falsy. -/
def textTruthy : Option String → Bool
  | none => false
  | some s => !(s == "")

mutual

/-- Serialise one element the way `ElementTree.write` does: a start tag
with attributes, then either a self-closing form when the element has no
(truthy) text and no children, or text followed by the serialised
children and the end tag. -/
def serializeElem : XML → String
  | XML.elem tag attrs text children =>
    let openTag := "<" ++ tag ++ attrsString attrs
    if textTruthy text || !children.isEmpty then
      openTag ++ ">" ++ escText (text.getD "") ++ serializeList children ++ "</" ++ tag ++ ">"
    else
      openTag ++ " />"

/-- Serialise a list of sibling elements in order. -/
def serializeList : List XML → String
  | [] => ""
  | x :: xs => serializeElem x ++ serializeList xs

end

/-- The XML declaration emitted by `ElementTree.write` with
`encoding='utf-8'` and `xml_declaration=True`, followed by the newline
the writer emits after it. -/
def xmlDecl : String := "<?xml version=\u00271.0\u0027 encoding=\u0027utf-8\u0027?>\n"

/-- UTF-8 encoding of a single code point as a list of byte values. -/
def utf8Char (c : Nat) : List Nat :=
  if c < 128 then [c]
  else if c < 2048 then [192 + c / 64, 128 + c % 64]
  else if c < 65536 then [224 + c / 4096, 128 + c / 64 % 64, 128 + c % 64]
  else [240 + c / 262144, 128 + c / 4096 % 64, 128 + c / 64 % 64, 128 + c % 64]

/-- UTF-8 encoding of a string as a list of byte values. -/
def strBytes (s : String) : List Nat :=
  s.data.flatMap (fun c => utf8Char c.toNat)

/-- Serialise a whole document: XML declaration plus the root element,
UTF-8 encoded, as `ElementTree.write` produces into its output file. -/
def serializeDoc (x : XML) : List Nat :=
  strBytes (xmlDecl ++ serializeElem x)

/-- The base64 alphabet character for a sextet value, as an ASCII code. -/
def b64char (n : Nat) : Nat :=
  if n < 26 then n + 65
  else if n < 52 then n + 71
  else if n < 62 then n - 4
  else if n = 62 then 43
  else 47

/-- Inverse of the base64 alphabet: the sextet value of an ASCII code,
or `none` when the character is not in the alphabet. -/
def sextet (c : Nat) : Option Nat :=
  if 65 ≤ c ∧ c ≤ 90 then some (c - 65)
  else if 97 ≤ c ∧ c ≤ 122 then some (c - 71)
  else if 48 ≤ c ∧ c ≤ 57 then some (c + 4)
  else if c = 43 then some 62
  else if c = 47 then some 63
  else none

/-- Standard base64 encoding with padding (`base64.b64encode`), bytes in
and ASCII codes out. -/
def b64encode : List Nat → List Nat
  | [] => []
  | [b1] => [b64char (b1 / 4), b64char (b1 % 4 * 16), 61, 61]
  | [b1, b2] => [b64char (b1 / 4), b64char (b1 % 4 * 16 + b2 / 16), b64char (b2 % 16 * 4), 61]
  | b1 :: b2 :: b3 :: rest =>
    b64char (b1 / 4) :: b64char (b1 % 4 * 16 + b2 / 16) ::
      b64char (b2 % 16 * 4 + b3 / 64) :: b64char (b3 % 64) :: b64encode rest

/-- Standard base64 decoding with padding (`base64.b64decode`); returns
`none` on a malformed input, which the Python function reports by
raising an exception. -/
def b64decode : List Nat → Option (List Nat)
  | [] => some []
  | c1 :: c2 :: c3 :: c4 :: rest =>
    match sextet c1, sextet c2 with
    | some s1, some s2 =>
      if c3 = 61 then
        if c4 = 61 ∧ rest = [] then some [s1 * 4 + s2 / 16] else none
      else
        match sextet c3 with
        | some s3 =>
          if c4 = 61 then
            if rest = [] then some [s1 * 4 + s2 / 16, s2 % 16 * 16 + s3 / 4] else none
          else
            match sextet c4 with
            | some s4 =>
              (b64decode rest).map
                (fun bs => (s1 * 4 + s2 / 16) :: (s2 % 16 * 16 + s3 / 4) :: (s3 % 4 * 64 + s4) :: bs)
            | none => none
        | none => none
    | _, _ => none
  | _ => none

/-- Whether a byte is the ASCII code of a hexadecimal digit. -/
def isHexDigit (c : Nat) : Bool :=
  (48 ≤ c && c ≤ 57) || (65 ≤ c && c ≤ 70) || (97 ≤ c && c ≤ 102)

/-- The numeric value of a hexadecimal digit given by its ASCII code. -/
def hexVal (c : Nat) : Nat :=
  if 48 ≤ c ∧ c ≤ 57 then c - 48
  else if 65 ≤ c ∧ c ≤ 70 then c - 55
  else c - 87

/-- Percent decoding as performed by `urllib.parse.unquote` at the byte
level: a percent sign followed by two hexadecimal digits is replaced by
the corresponding byte, and a malformed percent sequence is left as it
stands.  It never fails. -/
def unquote : List Nat → List Nat
  | [] => []
  | c :: a :: b :: rest2 =>
    if c = 37 ∧ isHexDigit a ∧ isHexDigit b then (hexVal a * 16 + hexVal b) :: unquote rest2
    else c :: unquote (a :: b :: rest2)
  | c :: rest => c :: unquote rest

/-- The internal state of the RC4 stream cipher: the byte permutation
and the two indices. -/
structure RC4St where
  S : List Nat
  i : Nat
  j : Nat

/-- The simultaneous swap of two positions of the RC4 permutation,
as in the Python tuple assignment the algorithm uses. -/
def swapL (S : List Nat) (a b : Nat) : List Nat :=
  let va := S.getD a 0
  let vb := S.getD b 0
  (S.set a vb).set b va

/-- One iteration of the RC4 key-scheduling loop. -/
def ksaStep (key : List Nat) (Sj : List Nat × Nat) (i : Nat) : List Nat × Nat :=
  let j2 := (Sj.2 + Sj.1.getD i 0 + key.getD (i % key.length) 0) % 256
  (swapL Sj.1 i j2, j2)

/-- The RC4 key schedule: 256 swap iterations over the identity
permutation. -/
def ksa (key : List Nat) : List Nat :=
  ((List.range 256).foldl (ksaStep key) (List.range 256, 0)).1

/-- One step of the RC4 pseudo-random generation algorithm, producing a
keystream byte and the successor state. -/
def rc4step (st : RC4St) : Nat × RC4St :=
  let i2 := (st.i + 1) % 256
  let j2 := (st.j + st.S.getD i2 0) % 256
  let S2 := swapL st.S i2 j2
  let k := S2.getD ((S2.getD i2 0 + S2.getD j2 0) % 256) 0
  (k, RC4St.mk S2 i2 j2)

/-- Run the RC4 cipher over a message from a given state: each message
byte is xor-ed with the next keystream byte.  Encryption and decryption
are this same operation, as in `Crypto.Cipher.ARC4`. -/
def rc4run (st : RC4St) : List Nat → List Nat
  | [] => []
  | b :: rest =>
    let ks := rc4step st
    (b ^^^ ks.1) :: rc4run ks.2 rest

/-- The `ARC4.new` constructor: it accepts keys of 40 to 2048 bits
(5 to 256 bytes) and rejects anything else, in particular the empty
sentinel list produced by a failed RSA unwrap. -/
def ARC4new (key : List Nat) : Option RC4St :=
  if 5 ≤ key.length ∧ key.length ≤ 256 then some (RC4St.mk (ksa key) 0 0) else none

/-- An RSA PKCS#1 v1.5 key pair, modelling the external PyCryptodome
primitive: `pubEnc` encrypts a message under the public key using the
given random padding bytes, and `privDec` recovers a message under the
private key, returning `none` exactly when the library would hand back
the caller-supplied sentinel (invalid padding) or raise (malformed
ciphertext). -/
structure RSAKeyPair where
  pubEnc : List Nat → List Nat → List Nat
  privDec : List Nat → Option (List Nat)

/-- The error taxonomy of the client, naming the exceptions the Python
code raises with their messages. -/
inductive MobilpayError where
  | argumentError : String → MobilpayError
  | validationError : String → MobilpayError
  | decryptionError : String → MobilpayError
  | parseError : MobilpayError
deriving DecidableEq

/-- The pair of base64-encoded fields returned by `encrypt_message`. -/
structure EncryptedPayload where
  env_key : List Nat
  data : List Nat
deriving DecidableEq

/-- `Client.encrypt_message`: encrypt the fresh 16-byte session key
under the RSA public key and base64-encode it, RC4-encrypt the XML
message under the session key and base64-encode it.  The session key
and the RSA padding randomness are explicit arguments standing for the
random source. -/
def encrypt_message (kp : RSAKeyPair) (session_key pad xml_message : List Nat) :
    EncryptedPayload :=
  EncryptedPayload.mk (b64encode (kp.pubEnc pad session_key))
    (b64encode (rc4run (RC4St.mk (ksa session_key) 0 0) xml_message))

/-- The guarded region of `Client.decrypt_message` (the `try` block):
base64-decode both percent-decoded fields, RSA-unwrap the session key
with the empty-list sentinel for padding failures, build the RC4 cipher
and decrypt the payload.  `none` stands for any exception raised inside
the block. -/
def decryptBody (kp : RSAKeyPair) (env_key data : List Nat) : Option (List Nat) :=
  match b64decode (unquote env_key) with
  | none => none
  | some ek =>
    match b64decode (unquote data) with
    | none => none
    | some d =>
      match ARC4new ((kp.privDec ek).getD []) with
      | some st => some (rc4run st d)
      | none => none

/-- `Client.decrypt_message`: reject empty arguments, then run the
guarded region; every failure inside it collapses to the single opaque
decryption error. -/
def decrypt_message (kp : RSAKeyPair) (env_key data : List Nat) :
    Except MobilpayError (List Nat) :=
  if env_key = [] ∨ data = [] then
    Except.error (MobilpayError.argumentError "Arguments missing.")
  else
    match decryptBody kp env_key data with
    | some xml => Except.ok xml
    | none => Except.error (MobilpayError.decryptionError "Could not decrypt message.")

/-- The billing structure passed under the `billing` keyword, with the
five scalar fields the code reads (absent fields default to the empty
string). -/
structure Billing where
  first_name : String
  last_name : String
  address : String
  email : String
  phone : String
deriving DecidableEq

/-- The arguments of `Client.create_request_xml`, after the `kwargs.get`
lookups with their defaults have been applied.  `billing` is `none` when
the keyword is absent or falsy, and `params` is the extra-parameter
mapping in insertion order. -/
structure OrderArgs where
  order_id : String
  order_type : String
  timestamp : String
  amount : Int
  currency : String
  customer_id : String
  details : String
  billing : Option Billing
  params : List (String × String)
  confirm_url : String
  return_url : String

/-- One `<param><name/><value/></param>` element of the `params`
block. -/
def paramElem (n v : String) : XML :=
  XML.elem "param" [] none
    [XML.elem "name" [] (some n) [], XML.elem "value" [] (some v) []]

/-- The children appended to the `params` element by the
`add_other_param` loop: an entry contributes an element exactly when
both its name and its value are truthy (non-empty). -/
def paramsChildren (ps : List (String × String)) : List XML :=
  ps.filterMap (fun p => if p.1 ≠ "" ∧ p.2 ≠ "" then some (paramElem p.1 p.2) else none)

/-- The `contact_info` block built when a billing structure is
present. -/
def billingChildren (b : Billing) : List XML :=
  [XML.elem "contact_info" [] none
    [XML.elem "billing" [("type", "person")] none
      [XML.elem "first_name" [] (some b.first_name) [],
       XML.elem "last_name" [] (some b.last_name) [],
       XML.elem "address" [] (some b.address) [],
       XML.elem "email" [] (some b.email) [],
       XML.elem "mobile_phone" [] (some b.phone) []]]]

/-- The `invoice` element with its four attributes and its children. -/
def invoiceElem (a : OrderArgs) : XML :=
  XML.elem "invoice"
    [("currency", a.currency), ("amount", toString a.amount),
     ("customer_type", "2"), ("customer_id", a.customer_id)]
    none
    (XML.elem "details" [] (some a.details) [] ::
      (match a.billing with
       | some b => billingChildren b
       | none => []))

/-- The element tree built by `Client.create_request_xml`: the `order`
root with `signature`, `invoice`, the optional `params` block (present
only when the mapping is non-empty) and the `url` block, in this fixed
order. -/
def orderTree (signature : String) (a : OrderArgs) : XML :=
  XML.elem "order"
    [("type", a.order_type), ("id", a.order_id), ("timestamp", a.timestamp)]
    none
    ([XML.elem "signature" [] (some signature) [], invoiceElem a]
      ++ (if a.params ≠ [] then [XML.elem "params" [] none (paramsChildren a.params)] else [])
      ++ [XML.elem "url" [] none
            [XML.elem "confirm" [] (some a.confirm_url) [],
             XML.elem "return" [] (some a.return_url) []]])

/-- `Client.create_request_xml`: the serialised UTF-8 bytes of the
order document, XML declaration included. -/
def create_request_xml (signature : String) (a : OrderArgs) : List Nat :=
  serializeDoc (orderTree signature a)

/-- The attribute list of the acknowledgement `crc` element: the
`error_type` and `error_code` attributes are set, in this order, each
only when its value is truthy. -/
def webhookAttrs (error_type error_code : String) : List (String × String) :=
  (if error_type ≠ "" then [("error_type", error_type)] else [])
    ++ (if error_code ≠ "" then [("error_code", error_code)] else [])

/-- `Client.create_webhook_reponse`: the serialised single-element
`crc` document whose text is the message and whose optional attributes
are present only when non-empty. -/
def create_webhook_reponse (message error_type error_code : String) : List Nat :=
  serializeDoc (XML.elem "crc" (webhookAttrs error_type error_code) (some message) [])

/-- A value stored in the dictionary returned by
`Client.parse_webhook_request`: a scalar (possibly `None`) string, the
reconstructed `params` mapping, or the error record. -/
inductive PyVal where
  | vStr : Option String → PyVal
  | vDict : List (Option String × Option String) → PyVal
  | vErr : Option String → Option String → PyVal
deriving DecidableEq

/-- Assignment into a Python dictionary modelled as an association list
in insertion order: an existing key is updated in place, a new key is
appended. -/
def dictSet (d : List (String × PyVal)) (k : String) (v : PyVal) :
    List (String × PyVal) :=
  if d.any (fun p => p.1 == k) then d.map (fun p => if p.1 == k then (k, v) else p)
  else d ++ [(k, v)]

/-- Lookup in the parsed dictionary. -/
def dictGet (d : List (String × PyVal)) (k : String) : Option PyVal :=
  (d.find? (fun p => p.1 == k)).map (fun p => p.2)

/-- Assignment into the reconstructed `params` dictionary, whose keys
and values are the (possibly `None`) text contents of elements. -/
def pdictSet (d : List (Option String × Option String)) (k v : Option String) :
    List (Option String × Option String) :=
  if d.any (fun p => p.1 == k) then d.map (fun p => if p.1 == k then (k, v) else p)
  else d ++ [(k, v)]

/-- `Element.findall` restricted to a tag: the direct children carrying
that tag, in document order. -/
def findall (x : XML) (t : String) : List XML :=
  x.children.filter (fun c => c.tag == t)

/-- Lookup of an attribute (`attrib.get(key)`). -/
def attrGet (x : XML) (k : String) : Option String :=
  ((x.attrs).find? (fun p => p.1 == k)).map (fun p => p.2)

/-- Lookup of an attribute with a default (`attrib.get(key, default)`). -/
def attrGetD (x : XML) (k d : String) : String :=
  (attrGet x k).getD d

/-- Indexing the first match of a tag, `findall(tag)[0]`: raises on an
empty result, which the model reports as the parse error. -/
def firstTag (x : XML) (t : String) : Except MobilpayError XML :=
  match findall x t with
  | [] => Except.error MobilpayError.parseError
  | c :: _ => Except.ok c

/-- The loop over `params.findall('param')`: each entry stores the text
of the first `name` child against the text of the first `value` child,
failing like the source when either child is absent. -/
def parseParams (ps : List XML) (acc : List (Option String × Option String)) :
    Except MobilpayError (List (Option String × Option String)) :=
  match ps with
  | [] => Except.ok acc
  | p :: rest =>
    match firstTag p "name" with
    | Except.error e => Except.error e
    | Except.ok nameEl =>
      match firstTag p "value" with
      | Except.error e => Except.error e
      | Except.ok valueEl => parseParams rest (pdictSet acc nameEl.text valueEl.text)

/-- The per-child step of the loop over the `mobilpay` block: every
child other than `customer` is stored verbatim under its tag, and a
child tagged `error` additionally stores the error record. -/
def applyChild (d : List (String × PyVal)) (c : XML) : List (String × PyVal) :=
  let d1 := if c.tag ≠ "customer" then dictSet d c.tag (PyVal.vStr c.text) else d
  if c.tag = "error" then dictSet d1 "error" (PyVal.vErr (attrGet c "code") c.text) else d1

/-- `Client.parse_webhook_request`: root attributes, the `customer_id`
of the first `invoice`, the reconstructed `params` mapping, the `crc`
attribute of the first `mobilpay` block, and finally the verbatim
pass-through of the `mobilpay` children into the same flat
dictionary. -/
def parse_webhook_request (root : XML) : Except MobilpayError (List (String × PyVal)) :=
  let d0 := dictSet (dictSet (dictSet []
    "order_id" (PyVal.vStr (some (attrGetD root "id" ""))))
    "timestamp" (PyVal.vStr (some (attrGetD root "timestamp" ""))))
    "type" (PyVal.vStr (some (attrGetD root "type" "")))
  match firstTag root "invoice" with
  | Except.error e => Except.error e
  | Except.ok invoice =>
    let d1 := dictSet d0 "customer_id" (PyVal.vStr (attrGet invoice "customer_id"))
    match firstTag root "params" with
    | Except.error e => Except.error e
    | Except.ok paramsEl =>
      match parseParams (findall paramsEl "param") [] with
      | Except.error e => Except.error e
      | Except.ok pd =>
        let d2 := dictSet d1 "params" (PyVal.vDict pd)
        match firstTag root "mobilpay" with
        | Except.error e => Except.error e
        | Except.ok mp =>
          let d3 := dictSet d2 "crc" (PyVal.vStr (attrGet mp "crc"))
          Except.ok (mp.children.foldl applyChild d3)

/-- The keyword arguments of `Client.create_payment_data`; `none`
stands for an absent keyword. -/
structure PaymentKwargs where
  order_id : Option String
  currency : Option String
  amount : Option Int
  customer_id : Option String
  details : Option String
  billing : Option Billing
  params : List (String × String)
  confirm_url : Option String
  return_url : Option String

/-- Python falsiness of an optional string argument: absent or empty. -/
def strFalsy (o : Option String) : Bool :=
  o.getD "" == ""

/-- Python falsiness of the optional numeric `amount` argument: absent
or zero.  A negative number is truthy. -/
def amountFalsy (o : Option Int) : Bool :=
  o.getD 0 == 0

/-- The argument record `create_payment_data` assembles for
`create_request_xml` after validation. -/
def argsOfKwargs (timestamp : String) (kw : PaymentKwargs) : OrderArgs :=
  OrderArgs.mk (kw.order_id.getD "") "card" timestamp (kw.amount.getD 0)
    (kw.currency.getD "RON") (kw.customer_id.getD "") (kw.details.getD "")
    kw.billing kw.params (kw.confirm_url.getD "") (kw.return_url.getD "")

/-- `Client.create_payment_data`: reject falsy required arguments, then
reject an `order_id` longer than 64 characters, then build the order
document and encrypt it.  The encryption routine (`encrypt_message`
applied to the keys and the fresh randomness) is passed explicitly as
`encFn`, so that theorems can state that the failing paths never invoke
it. -/
def create_payment_data (signature timestamp : String)
    (encFn : List Nat → EncryptedPayload) (kw : PaymentKwargs) :
    Except MobilpayError EncryptedPayload :=
  if strFalsy kw.order_id || amountFalsy kw.amount || strFalsy kw.customer_id
      || strFalsy kw.details || strFalsy kw.confirm_url || strFalsy kw.return_url then
    Except.error (MobilpayError.validationError
      "Can\u0027t create mobilpay request with missing args.")
  else if (kw.order_id.getD "").length > 64 then
    Except.error (MobilpayError.validationError
      "order_id should not have more than 64 characters.")
  else
    Except.ok (encFn (create_request_xml signature (argsOfKwargs timestamp kw)))

/-- All elements of a byte list are byte values. -/
def bytesLT (l : List Nat) : Prop := ∀ x ∈ l, x < 256

/-- A concrete matching key pair for witnesses: encryption is the
identity on the message and decryption always succeeds verbatim. -/
def kpId : RSAKeyPair := RSAKeyPair.mk (fun _ m => m) (fun c => some c)

/-- A concrete 16-byte session key. -/
def skW : List Nat := [0, 1, 2, 3, 4, 5, 6, 7, 8, 9, 10, 11, 12, 13, 14, 15]

/-- A concrete order-argument record. -/
def aW : OrderArgs :=
  OrderArgs.mk "o1" "card" "20250101000000" 10 "RON" "c1" "d" none []
    "http://c" "http://r"

/-- A concrete order-argument record with extra parameters of all
shapes: both parts non-empty, empty name, empty value. -/
def aC8 : OrderArgs :=
  OrderArgs.mk "o1" "card" "20250101000000" 10 "RON" "c1" "d" none
    [("a", "1"), ("", "x"), ("b", ""), ("c", "2")] "http://c" "http://r"

/-- A constant stand-in for the encryption routine, used to observe
whether the orchestration reached the encryption step. -/
def encZ : List Nat → EncryptedPayload := fun _ => EncryptedPayload.mk [] []

/-- A second constant encryption stand-in, distinct from `encZ`. -/
def encO : List Nat → EncryptedPayload := fun _ => EncryptedPayload.mk [1] [1]

/-- Keyword arguments with the required `order_id` absent. -/
def kwMissing : PaymentKwargs :=
  PaymentKwargs.mk none none (some 10) (some "c1") (some "d") none []
    (some "http://c") (some "http://r")

/-- Keyword arguments with a negative amount and everything else
valid. -/
def kwNeg : PaymentKwargs :=
  PaymentKwargs.mk (some "o1") none (some (-1)) (some "c1") (some "d") none []
    (some "http://c") (some "http://r")

/-- Keyword arguments with a zero amount and everything else valid. -/
def kwZero : PaymentKwargs :=
  PaymentKwargs.mk (some "o1") none (some 0) (some "c1") (some "d") none []
    (some "http://c") (some "http://r")

/-- A 64-character order identifier. -/
def oid64 : String :=
  "abcdabcdabcdabcdabcdabcdabcdabcdabcdabcdabcdabcdabcdabcdabcdabcd"

/-- A 65-character order identifier. -/
def oid65 : String :=
  "abcdabcdabcdabcdabcdabcdabcdabcdabcdabcdabcdabcdabcdabcdabcdabcdX"

/-- Valid keyword arguments carrying the 64-character order id. -/
def kw64 : PaymentKwargs :=
  PaymentKwargs.mk (some oid64) none (some 10) (some "c1") (some "d") none []
    (some "http://c") (some "http://r")

/-- Valid keyword arguments carrying the 65-character order id. -/
def kw65 : PaymentKwargs :=
  PaymentKwargs.mk (some oid65) none (some 10) (some "c1") (some "d") none []
    (some "http://c") (some "http://r")

/-- The fixed sample notification of the specification: two echoed
parameters and a `mobilpay` block with one `error` child. -/
def sampleC5 : XML :=
  XML.elem "order" [("id", "O1"), ("timestamp", "T"), ("type", "card")] none
    [XML.elem "invoice" [("customer_id", "C1")] none [],
     XML.elem "params" [] none
       [XML.elem "param" [] none
          [XML.elem "name" [] (some "foo") [], XML.elem "value" [] (some "bar") []],
        XML.elem "param" [] none
          [XML.elem "name" [] (some "baz") [], XML.elem "value" [] (some "1") []]],
     XML.elem "mobilpay" [("crc", "X123")] none
       [XML.elem "error" [("code", "30")] (some "Card declined") []]]

/-- A notification whose root has no `invoice` child. -/
def sampleNoInvoice : XML :=
  XML.elem "order" [] none [XML.elem "params" [] none [], XML.elem "mobilpay" [] none []]

/-- A notification whose root has no `mobilpay` child. -/
def sampleNoMobilpay : XML :=
  XML.elem "order" [] none [XML.elem "invoice" [] none [], XML.elem "params" [] none []]

/-- A `mobilpay` block whose `crc` attribute is `X123` but which also
carries a child element tagged `crc` with different text. -/
def sampleC10mp : XML :=
  XML.elem "mobilpay" [("crc", "X123")] none [XML.elem "crc" [] (some "OVERRIDE") []]

/-- A notification in which the `mobilpay` pass-through overwrites the
previously stored `crc` field. -/
def sampleC10 : XML :=
  XML.elem "order" [] none
    [XML.elem "invoice" [] none [], XML.elem "params" [] none [], sampleC10mp]

theorem b64char_ne_61 (n : Nat) : b64char n ≠ 61 := by
  unfold b64char
  repeat' split
  all_goals omega

theorem b64char_ne_37 (n : Nat) : b64char n ≠ 37 := by
  unfold b64char
  repeat' split
  all_goals omega

theorem sextet_b64char : ∀ n, n < 64 → sextet (b64char n) = some n := by decide

theorem b64encode_ne_nil : ∀ bs : List Nat, bs ≠ [] → b64encode bs ≠ []
  | [], h => absurd rfl h
  | [_], _ => by simp [b64encode]
  | [_, _], _ => by simp [b64encode]
  | _ :: _ :: _ :: _, _ => by simp [b64encode]

theorem b64encode_ne_37 : ∀ bs : List Nat, ∀ c ∈ b64encode bs, c ≠ 37
  | [], c, hc => by simp [b64encode] at hc
  | [b1], c, hc => by
    simp only [b64encode, List.mem_cons, List.not_mem_nil, or_false] at hc
    rcases hc with rfl | rfl | rfl | rfl
    · exact b64char_ne_37 _
    · exact b64char_ne_37 _
    · decide
    · decide
  | [b1, b2], c, hc => by
    simp only [b64encode, List.mem_cons, List.not_mem_nil, or_false] at hc
    rcases hc with rfl | rfl | rfl | rfl
    · exact b64char_ne_37 _
    · exact b64char_ne_37 _
    · exact b64char_ne_37 _
    · decide
  | b1 :: b2 :: b3 :: rest, c, hc => by
    simp only [b64encode, List.mem_cons] at hc
    rcases hc with rfl | rfl | rfl | rfl | hc
    · exact b64char_ne_37 _
    · exact b64char_ne_37 _
    · exact b64char_ne_37 _
    · exact b64char_ne_37 _
    · exact b64encode_ne_37 rest c hc

theorem unquote_eq_self : ∀ l : List Nat, (∀ c ∈ l, c ≠ 37) → unquote l = l
  | [], _ => rfl
  | c :: a :: b :: rest2, h => by
    have hc : c ≠ 37 := h c (List.mem_cons_self c _)
    have hrest : ∀ x ∈ a :: b :: rest2, x ≠ 37 :=
      fun x hx => h x (List.mem_cons_of_mem c hx)
    unfold unquote
    rw [if_neg (by tauto)]
    rw [unquote_eq_self (a :: b :: rest2) hrest]
  | [c], h => by simp [unquote]
  | [c, a], h => by simp [unquote]

theorem b64_roundtrip : ∀ bs : List Nat, (∀ b ∈ bs, b < 256) →
    b64decode (b64encode bs) = some bs
  | [], _ => rfl
  | [b1], h => by
    have h1 : b1 < 256 := h b1 (by simp)
    have e1 : sextet (b64char (b1 / 4)) = some (b1 / 4) := sextet_b64char _ (by omega)
    have e2 : sextet (b64char (b1 % 4 * 16)) = some (b1 % 4 * 16) := sextet_b64char _ (by omega)
    simp only [b64encode, b64decode, e1, e2, and_self, if_true, reduceIte,
      Option.some.injEq, List.cons.injEq, and_true]
    omega
  | [b1, b2], h => by
    have h1 : b1 < 256 := h b1 (by simp)
    have h2 : b2 < 256 := h b2 (by simp)
    have e1 : sextet (b64char (b1 / 4)) = some (b1 / 4) := sextet_b64char _ (by omega)
    have e2 : sextet (b64char (b1 % 4 * 16 + b2 / 16)) = some (b1 % 4 * 16 + b2 / 16) :=
      sextet_b64char _ (by omega)
    have e3 : sextet (b64char (b2 % 16 * 4)) = some (b2 % 16 * 4) := sextet_b64char _ (by omega)
    have hne3 : ¬ b64char (b2 % 16 * 4) = 61 := b64char_ne_61 _
    simp only [b64encode, b64decode, e1, e2, e3, if_neg hne3, and_self, if_true, reduceIte,
      Option.some.injEq, List.cons.injEq, and_true]
    constructor
    · omega
    · omega
  | b1 :: b2 :: b3 :: rest, h => by
    have h1 : b1 < 256 := h b1 (by simp)
    have h2 : b2 < 256 := h b2 (by simp)
    have h3 : b3 < 256 := h b3 (by simp)
    have e1 : sextet (b64char (b1 / 4)) = some (b1 / 4) := sextet_b64char _ (by omega)
    have e2 : sextet (b64char (b1 % 4 * 16 + b2 / 16)) = some (b1 % 4 * 16 + b2 / 16) :=
      sextet_b64char _ (by omega)
    have e3 : sextet (b64char (b2 % 16 * 4 + b3 / 64)) = some (b2 % 16 * 4 + b3 / 64) :=
      sextet_b64char _ (by omega)
    have e4 : sextet (b64char (b3 % 64)) = some (b3 % 64) := sextet_b64char _ (by omega)
    have hne3 : ¬ b64char (b2 % 16 * 4 + b3 / 64) = 61 := b64char_ne_61 _
    have hne4 : ¬ b64char (b3 % 64) = 61 := b64char_ne_61 _
    have ih := b64_roundtrip rest (fun x hx => h x (by simp [hx]))
    simp only [b64encode, b64decode, e1, e2, e3, e4, if_neg hne3, if_neg hne4, ih,
      Option.map_some', Option.some.injEq, List.cons.injEq]
    refine ⟨by omega, by omega, by omega, trivial⟩

theorem getD_lt {S : List Nat} (hS : bytesLT S) (n : Nat) : S.getD n 0 < 256 := by
  rw [List.getD_eq_getElem?_getD]
  cases h : S[n]? with
  | none => simp
  | some v =>
    simp only [Option.getD_some]
    exact hS v (List.getElem?_mem h)

theorem swapL_bytesLT {S : List Nat} (hS : bytesLT S) (a b : Nat) :
    bytesLT (swapL S a b) := by
  intro x hx
  unfold swapL at hx
  rcases List.mem_or_eq_of_mem_set hx with hx | rfl
  · rcases List.mem_or_eq_of_mem_set hx with hx | rfl
    · exact hS x hx
    · exact getD_lt hS _
  · exact getD_lt hS _

theorem foldl_ksaStep_bytesLT (key : List Nat) :
    ∀ (l : List Nat) (Sj : List Nat × Nat), bytesLT Sj.1 →
      bytesLT ((l.foldl (ksaStep key) Sj).1)
  | [], _, h => h
  | i :: rest, Sj, h => by
    rw [List.foldl_cons]
    exact foldl_ksaStep_bytesLT key rest _ (swapL_bytesLT h _ _)

set_option maxRecDepth 4096 in
theorem ksa_bytesLT (key : List Nat) : bytesLT (ksa key) := by
  unfold ksa
  refine foldl_ksaStep_bytesLT key _ _ ?_
  intro x hx
  exact List.mem_range.mp hx

theorem rc4step_fst_lt {st : RC4St} (h : bytesLT st.S) : (rc4step st).1 < 256 := by
  unfold rc4step
  exact getD_lt (swapL_bytesLT h _ _) _

theorem rc4step_snd_bytesLT {st : RC4St} (h : bytesLT st.S) :
    bytesLT (rc4step st).2.S := by
  unfold rc4step
  exact swapL_bytesLT h _ _

theorem rc4run_bytesLT : ∀ (st : RC4St) (m : List Nat), bytesLT st.S → bytesLT m →
    bytesLT (rc4run st m)
  | _, [], _, _ => by intro x hx; simp [rc4run] at hx
  | st, b :: rest, hS, hm => by
    intro x hx
    simp only [rc4run, List.mem_cons] at hx
    rcases hx with rfl | hx
    · have h1 : b < 256 := hm b (List.mem_cons_self _ _)
      have h2 : (rc4step st).1 < 256 := rc4step_fst_lt hS
      have h256 : (256 : Nat) = 2 ^ 8 := by norm_num
      rw [h256] at h1 h2 ⊢
      exact Nat.xor_lt_two_pow h1 h2
    · exact rc4run_bytesLT (rc4step st).2 rest (rc4step_snd_bytesLT hS)
        (fun y hy => hm y (List.mem_cons_of_mem _ hy)) x hx

theorem rc4run_bytesLT_mk (S : List Nat) (i j : Nat) (m : List Nat)
    (hS : bytesLT S) (hm : bytesLT m) : bytesLT (rc4run (RC4St.mk S i j) m) :=
  rc4run_bytesLT (RC4St.mk S i j) m hS hm

theorem rc4run_rc4run : ∀ (st : RC4St) (m : List Nat), rc4run st (rc4run st m) = m
  | _, [] => rfl
  | st, b :: rest => by
    simp only [rc4run]
    rw [Nat.xor_assoc, Nat.xor_self, Nat.xor_zero, rc4run_rc4run (rc4step st).2 rest]

theorem rc4run_ne_nil (st : RC4St) : ∀ m : List Nat, m ≠ [] → rc4run st m ≠ []
  | [], h => absurd rfl h
  | _ :: _, _ => by simp [rc4run]

theorem char_toNat_lt_limit (c : Char) : c.toNat < 1114112 := by
  have h : c.val.toNat < 55296 ∨ (57343 < c.val.toNat ∧ c.val.toNat < 1114112) := c.valid
  have he : c.toNat = c.val.toNat := rfl
  rw [he]
  omega

theorem utf8Char_bytesLT {c : Nat} (h : c < 1114112) : bytesLT (utf8Char c) := by
  intro x hx
  unfold utf8Char at hx
  repeat' split at hx
  all_goals simp only [List.mem_cons, List.not_mem_nil, or_false] at hx
  all_goals omega

theorem strBytes_bytesLT (s : String) : bytesLT (strBytes s) := by
  intro x hx
  unfold strBytes at hx
  rcases List.mem_flatMap.mp hx with ⟨c, _, hc⟩
  exact utf8Char_bytesLT (char_toNat_lt_limit c) x hc

theorem strBytes_append (s t : String) : strBytes (s ++ t) = strBytes s ++ strBytes t := by
  unfold strBytes
  rw [String.data_append, List.flatMap_append]

theorem serializeDoc_ne_nil (x : XML) : serializeDoc x ≠ [] := by
  unfold serializeDoc
  rw [strBytes_append]
  have h : strBytes xmlDecl ≠ [] := by decide
  intro he
  exact h (List.append_eq_nil.mp he).1

set_option maxRecDepth 8192 in
theorem decrypt_encrypt (kp : RSAKeyPair) (sk pad msg : List Nat)
    (hmatch : kp.privDec (kp.pubEnc pad sk) = some sk)
    (hct : bytesLT (kp.pubEnc pad sk)) (hne : kp.pubEnc pad sk ≠ [])
    (hlen : sk.length = 16) (hmsg : bytesLT msg) (hmne : msg ≠ []) :
    decrypt_message kp (encrypt_message kp sk pad msg).env_key
      (encrypt_message kp sk pad msg).data = Except.ok msg := by
  have harc : ARC4new sk = some (RC4St.mk (ksa sk) 0 0) := by
    unfold ARC4new
    rw [if_pos (by omega)]
  have hek : (encrypt_message kp sk pad msg).env_key = b64encode (kp.pubEnc pad sk) := rfl
  have hdt : (encrypt_message kp sk pad msg).data
      = b64encode (rc4run (RC4St.mk (ksa sk) 0 0) msg) := rfl
  have hmb : ∀ b ∈ rc4run (RC4St.mk (ksa sk) 0 0) msg, b < 256 :=
    rc4run_bytesLT_mk (ksa sk) 0 0 msg (ksa_bytesLT sk) hmsg
  have hbody : decryptBody kp (b64encode (kp.pubEnc pad sk))
      (b64encode (rc4run (RC4St.mk (ksa sk) 0 0) msg)) = some msg := by
    unfold decryptBody
    rw [unquote_eq_self _ (b64encode_ne_37 _), unquote_eq_self _ (b64encode_ne_37 _)]
    rw [b64_roundtrip (kp.pubEnc pad sk) hct,
      b64_roundtrip (rc4run (RC4St.mk (ksa sk) 0 0) msg) hmb]
    simp only [hmatch, Option.getD_some, harc, rc4run_rc4run]
  rw [hek, hdt]
  unfold decrypt_message
  rw [if_neg (by
    push_neg
    exact ⟨b64encode_ne_nil _ hne, b64encode_ne_nil _ (rc4run_ne_nil _ _ hmne)⟩)]
  rw [hbody]

/-- C1: for every payment request, decrypting the encrypted order
document with the matching private key reproduces byte for byte the XML
bytes produced by `create_request_xml`: `decrypt_message` applied to the
`env_key` and `data` fields returned by `encrypt_message` on
`create_request_xml` returns exactly `create_request_xml`'s output.  The
matching-key hypotheses say that the RSA private key unwraps what the
public key wrapped, that the RSA ciphertext is a non-empty byte string,
and that the session key has the 16 bytes `Random.get_random_bytes(16)`
produces. -/
theorem c1_round_trip (kp : RSAKeyPair) (sk pad : List Nat) (signature : String)
    (a : OrderArgs) (hmatch : kp.privDec (kp.pubEnc pad sk) = some sk)
    (hct : bytesLT (kp.pubEnc pad sk)) (hne : kp.pubEnc pad sk ≠ [])
    (hlen : sk.length = 16) :
    decrypt_message kp
      (encrypt_message kp sk pad (create_request_xml signature a)).env_key
      (encrypt_message kp sk pad (create_request_xml signature a)).data
      = Except.ok (create_request_xml signature a) :=
  decrypt_encrypt kp sk pad _ hmatch hct hne hlen (strBytes_bytesLT _)
    (serializeDoc_ne_nil _)

theorem c1_round_trip_witness :
    decrypt_message kpId
      (encrypt_message kpId skW [] (create_request_xml "sig" aW)).env_key
      (encrypt_message kpId skW [] (create_request_xml "sig" aW)).data
      = Except.ok (create_request_xml "sig" aW) :=
  c1_round_trip kpId skW [] "sig" aW rfl (by unfold bytesLT; decide) (by decide) rfl

/-- C2: for every non-empty pair of inputs, `decrypt_message` either
succeeds or fails with the single opaque decryption error whose message
is `Could not decrypt message.`; no failure of percent decoding, base64
decoding, RSA unwrapping or stream decryption surfaces any other error
to the caller. -/
theorem c2_opaque_failure (kp : RSAKeyPair) (env_key data : List Nat)
    (h1 : env_key ≠ []) (h2 : data ≠ []) :
    (∃ xml, decrypt_message kp env_key data = Except.ok xml) ∨
      decrypt_message kp env_key data =
        Except.error (MobilpayError.decryptionError "Could not decrypt message.") := by
  unfold decrypt_message
  rw [if_neg (by push_neg; exact ⟨h1, h2⟩)]
  cases hb : decryptBody kp env_key data with
  | none => exact Or.inr rfl
  | some xml => exact Or.inl ⟨xml, rfl⟩

theorem c2_opaque_failure_witness :
    (∃ xml, decrypt_message kpId [65] [66] = Except.ok xml) ∨
      decrypt_message kpId [65] [66] =
        Except.error (MobilpayError.decryptionError "Could not decrypt message.") :=
  c2_opaque_failure kpId [65] [66] (by decide) (by decide)

/-- C3: whenever a required field (`order_id`, `amount`, `customer_id`,
`details`, `confirm_url` or `return_url`) is missing or empty,
`create_payment_data` fails with the validation error before the
encryption routine is invoked: the result is the validation error and is
independent of the encryption function, so no RSA or RC4 operation
occurs on the failing path. -/
theorem c3_missing_field_fails (signature timestamp : String)
    (enc1 enc2 : List Nat → EncryptedPayload) (kw : PaymentKwargs)
    (h : strFalsy kw.order_id = true ∨ kw.amount = none ∨ strFalsy kw.customer_id = true
      ∨ strFalsy kw.details = true ∨ strFalsy kw.confirm_url = true
      ∨ strFalsy kw.return_url = true) :
    create_payment_data signature timestamp enc1 kw
        = Except.error (MobilpayError.validationError
            "Can't create mobilpay request with missing args.")
      ∧ create_payment_data signature timestamp enc1 kw
        = create_payment_data signature timestamp enc2 kw := by
  have hg : (strFalsy kw.order_id || amountFalsy kw.amount || strFalsy kw.customer_id
      || strFalsy kw.details || strFalsy kw.confirm_url || strFalsy kw.return_url) = true := by
    rcases h with h | h | h | h | h | h <;> simp [h, amountFalsy]
  constructor
  · unfold create_payment_data
    rw [if_pos hg]
  · unfold create_payment_data
    rw [if_pos hg, if_pos hg]

theorem c3_missing_field_fails_witness :
    create_payment_data "s" "t" encZ kwMissing
        = Except.error (MobilpayError.validationError
            "Can't create mobilpay request with missing args.")
      ∧ create_payment_data "s" "t" encZ kwMissing
        = create_payment_data "s" "t" encO kwMissing :=
  c3_missing_field_fails "s" "t" encZ encO kwMissing (Or.inl (by decide))

/-- C4: for an otherwise-valid request, `create_payment_data` succeeds
when `order_id` has exactly 64 characters and fails with the validation
error about the 64-character bound when it has 65 characters. -/
theorem c4_orderid_length_boundary (signature timestamp : String)
    (encFn : List Nat → EncryptedPayload) (kw : PaymentKwargs) (oid : String)
    (hoid : kw.order_id = some oid)
    (ha : amountFalsy kw.amount = false) (hc : strFalsy kw.customer_id = false)
    (hd : strFalsy kw.details = false) (hcu : strFalsy kw.confirm_url = false)
    (hr : strFalsy kw.return_url = false) :
    (oid.length = 64 →
      create_payment_data signature timestamp encFn kw
        = Except.ok (encFn (create_request_xml signature (argsOfKwargs timestamp kw))))
    ∧ (oid.length = 65 →
      create_payment_data signature timestamp encFn kw
        = Except.error (MobilpayError.validationError
            "order_id should not have more than 64 characters.")) := by
  constructor
  · intro h64
    have hne : oid ≠ "" := by
      intro he
      rw [he] at h64
      simp at h64
    have hof : strFalsy kw.order_id = false := by
      rw [hoid]
      simp [strFalsy]
      exact hne
    have hg : (strFalsy kw.order_id || amountFalsy kw.amount || strFalsy kw.customer_id
        || strFalsy kw.details || strFalsy kw.confirm_url || strFalsy kw.return_url) = false := by
      rw [hof, ha, hc, hd, hcu, hr]
      rfl
    unfold create_payment_data
    rw [if_neg (by simp [hg])]
    rw [hoid]
    rw [if_neg (by simp [Option.getD_some, h64])]
  · intro h65
    have hne : oid ≠ "" := by
      intro he
      rw [he] at h65
      simp at h65
    have hof : strFalsy kw.order_id = false := by
      rw [hoid]
      simp [strFalsy]
      exact hne
    have hg : (strFalsy kw.order_id || amountFalsy kw.amount || strFalsy kw.customer_id
        || strFalsy kw.details || strFalsy kw.confirm_url || strFalsy kw.return_url) = false := by
      rw [hof, ha, hc, hd, hcu, hr]
      rfl
    unfold create_payment_data
    rw [if_neg (by simp [hg])]
    rw [hoid]
    rw [if_pos (by simp [Option.getD_some, h65])]

theorem c4_orderid_length_boundary_witness :
    create_payment_data "s" "t" encZ kw64
        = Except.ok (encZ (create_request_xml "s" (argsOfKwargs "t" kw64)))
      ∧ create_payment_data "s" "t" encZ kw65
        = Except.error (MobilpayError.validationError
            "order_id should not have more than 64 characters.") :=
  ⟨(c4_orderid_length_boundary "s" "t" encZ kw64 oid64 rfl (by decide) (by decide)
      (by decide) (by decide) (by decide)).1 (by decide),
    (c4_orderid_length_boundary "s" "t" encZ kw65 oid65 rfl (by decide) (by decide)
      (by decide) (by decide) (by decide)).2 (by decide)⟩

/-- C7 counterexample: a request whose amount is negative (`-1`, which
is not greater than 0) is not rejected: `create_payment_data` succeeds,
because Python truthiness only treats a zero or missing amount as
falsy.  This refutes the claim that every amount not greater than 0
fails with a validation error. -/
theorem c7_counterexample :
    kwNeg.amount = some (-1)
      ∧ create_payment_data "s" "t" encZ kwNeg = Except.ok (EncryptedPayload.mk [] []) :=
  ⟨rfl, rfl⟩

/-- C7 (amended): a request whose amount is zero or missing fails with
the validation error before any XML or crypto work (the result does not
depend on the encryption function); a negative amount is not rejected
by the validation. -/
theorem c7_amount_zero_fails (signature timestamp : String)
    (enc1 enc2 : List Nat → EncryptedPayload) (kw : PaymentKwargs)
    (h : kw.amount = none ∨ kw.amount = some 0) :
    create_payment_data signature timestamp enc1 kw
        = Except.error (MobilpayError.validationError
            "Can't create mobilpay request with missing args.")
      ∧ create_payment_data signature timestamp enc1 kw
        = create_payment_data signature timestamp enc2 kw := by
  have hg : (strFalsy kw.order_id || amountFalsy kw.amount || strFalsy kw.customer_id
      || strFalsy kw.details || strFalsy kw.confirm_url || strFalsy kw.return_url) = true := by
    have ha : amountFalsy kw.amount = true := by
      rcases h with h | h <;> simp [amountFalsy, h]
    rw [ha]
    simp
  constructor
  · unfold create_payment_data
    rw [if_pos hg]
  · unfold create_payment_data
    rw [if_pos hg, if_pos hg]

theorem c7_amount_zero_fails_witness :
    create_payment_data "s" "t" encZ kwZero
        = Except.error (MobilpayError.validationError
            "Can't create mobilpay request with missing args.")
      ∧ create_payment_data "s" "t" encZ kwZero
        = create_payment_data "s" "t" encO kwZero :=
  c7_amount_zero_fails "s" "t" encZ encO kwZero (Or.inr rfl)

theorem firstTag_cases (x : XML) (t : String) :
    firstTag x t = Except.error MobilpayError.parseError
      ∨ ∃ c, firstTag x t = Except.ok c := by
  unfold firstTag
  cases findall x t with
  | nil => exact Or.inl rfl
  | cons c rest => exact Or.inr ⟨c, rfl⟩

theorem parseParams_cases (ps : List XML) :
    ∀ acc, parseParams ps acc = Except.error MobilpayError.parseError
      ∨ ∃ d, parseParams ps acc = Except.ok d := by
  induction ps with
  | nil => exact fun acc => Or.inr ⟨acc, rfl⟩
  | cons p rest ih =>
    intro acc
    rcases firstTag_cases p "name" with h | ⟨c, h⟩
    · left
      unfold parseParams
      rw [h]
    · rcases firstTag_cases p "value" with h2 | ⟨c2, h2⟩
      · left
        unfold parseParams
        rw [h, h2]
      · unfold parseParams
        simp only [h, h2]
        exact ih (pdictSet acc c.text c2.text)

/-- C5: on the fixed sample notification with parameters `foo=bar` and
`baz=1` and a `mobilpay` block with attribute `crc="X123"` and one
child `error` with code 30 and text `Card declined`,
`parse_webhook_request` returns a record whose `params` entry is the
two-element mapping, whose `crc` is `X123` and whose `error` record is
code 30 with message `Card declined`. -/
theorem c5_sample_notification :
    ∃ d, parse_webhook_request sampleC5 = Except.ok d
      ∧ dictGet d "params" = some (PyVal.vDict [(some "foo", some "bar"), (some "baz", some "1")])
      ∧ dictGet d "crc" = some (PyVal.vStr (some "X123"))
      ∧ dictGet d "error" = some (PyVal.vErr (some "30") (some "Card declined")) :=
  ⟨_, rfl, rfl, rfl, rfl⟩

/-- C6: a well-formed notification whose root lacks an `invoice` child
or lacks the `mobilpay` response block makes `parse_webhook_request`
fail with the parse error. -/
theorem c6_missing_blocks (root : XML)
    (h : findall root "invoice" = [] ∨ findall root "mobilpay" = []) :
    parse_webhook_request root = Except.error MobilpayError.parseError := by
  rcases h with h | h
  · have h1 : firstTag root "invoice" = Except.error MobilpayError.parseError := by
      unfold firstTag
      rw [h]
    unfold parse_webhook_request
    rw [h1]
  · unfold parse_webhook_request
    rcases firstTag_cases root "invoice" with h1 | ⟨inv, h1⟩
    · simp only [h1]
    · simp only [h1]
      rcases firstTag_cases root "params" with h2 | ⟨pe, h2⟩
      · simp only [h2]
      · simp only [h2]
        rcases parseParams_cases (findall pe "param") [] with h3 | ⟨pd, h3⟩
        · simp only [h3]
        · simp only [h3]
          have h4 : firstTag root "mobilpay" = Except.error MobilpayError.parseError := by
            unfold firstTag
            rw [h]
          simp only [h4]

theorem c6_missing_blocks_witness :
    parse_webhook_request sampleNoInvoice = Except.error MobilpayError.parseError
      ∧ parse_webhook_request sampleNoMobilpay = Except.error MobilpayError.parseError :=
  ⟨c6_missing_blocks sampleNoInvoice (Or.inl rfl),
   c6_missing_blocks sampleNoMobilpay (Or.inr rfl)⟩

theorem paramsChildren_eq_filter_map (ps : List (String × String)) :
    paramsChildren ps
      = (ps.filter (fun p => decide (p.1 ≠ "") && decide (p.2 ≠ ""))).map
          (fun p => paramElem p.1 p.2) := by
  induction ps with
  | nil => rfl
  | cons p rest ih =>
    simp only [paramsChildren, List.filterMap_cons, List.filter_cons] at *
    by_cases h1 : p.1 = ""
    · simp [h1, ih]
    · by_cases h2 : p.2 = ""
      · simp [h1, h2, ih]
      · simp [h1, h2, ih]

/-- C8: for every extra-parameter mapping, exactly the entries with a
non-empty name and a non-empty value produce a `param` element (with
`name` and `value` children) in the built order document: the `params`
block's children are the filtered entries mapped to `paramElem`, and
entries with an empty part are silently dropped; when the mapping is
non-empty the block appears among the children of the tree serialised
by `create_request_xml`. -/
theorem c8_extra_params (signature : String) (a : OrderArgs) :
    paramsChildren a.params
        = (a.params.filter (fun p => decide (p.1 ≠ "") && decide (p.2 ≠ ""))).map
            (fun p => paramElem p.1 p.2)
      ∧ (a.params ≠ [] →
          XML.elem "params" [] none (paramsChildren a.params)
            ∈ (orderTree signature a).children) := by
  constructor
  · exact paramsChildren_eq_filter_map a.params
  · intro hne
    unfold orderTree
    simp only [XML.children]
    rw [if_pos hne]
    simp

theorem c8_extra_params_witness :
    paramsChildren aC8.params
        = (aC8.params.filter (fun p => decide (p.1 ≠ "") && decide (p.2 ≠ ""))).map
            (fun p => paramElem p.1 p.2)
      ∧ XML.elem "params" [] none (paramsChildren aC8.params) ∈ (orderTree "s" aC8).children :=
  ⟨(c8_extra_params "s" aC8).1, (c8_extra_params "s" aC8).2 (by decide)⟩

/-- C9: `create_webhook_reponse` builds the single-element `crc`
document whose text is the message; the `error_type` and `error_code`
attributes are each present exactly when the corresponding input string
is non-empty; in particular with message `X123` and empty error fields
the produced bytes are the declaration followed by `<crc>X123</crc>`
with no attributes.  The operation is a total pure function by
construction. -/
theorem c9_webhook_response (message error_type error_code : String) :
    create_webhook_reponse message error_type error_code
        = serializeDoc (XML.elem "crc" (webhookAttrs error_type error_code) (some message) [])
      ∧ (("error_type", error_type) ∈ webhookAttrs error_type error_code ↔ error_type ≠ "")
      ∧ (("error_code", error_code) ∈ webhookAttrs error_type error_code ↔ error_code ≠ "")
      ∧ create_webhook_reponse "X123" "" "" = strBytes (xmlDecl ++ "<crc>X123</crc>") := by
  refine ⟨rfl, ?_, ?_, by decide⟩
  · have hcode : ("error_type", error_type)
        ∉ (if error_code ≠ "" then [("error_code", error_code)] else []) := by
      split <;> simp
    unfold webhookAttrs
    by_cases h : error_type = ""
    · simp [h, hcode]
    · simp [h, hcode]
  · have hty : ("error_code", error_code)
        ∉ (if error_type ≠ "" then [("error_type", error_type)] else []) := by
      split <;> simp
    unfold webhookAttrs
    by_cases h : error_code = ""
    · simp [h, hty]
    · simp [h, hty]

/-- C10: the `mobilpay` pass-through stores its verbatim scalar fields
in the same flat dictionary as the standard fields and runs last, so on
a notification whose `mobilpay` block carries a child tagged `crc` the
pass-through value overwrites the previously parsed `crc`: the returned
`crc` is the child's text and differs from the block's `crc`
attribute. -/
theorem c10_passthrough_overwrites_crc :
    (∃ d, parse_webhook_request sampleC10 = Except.ok d
        ∧ dictGet d "crc" = some (PyVal.vStr (some "OVERRIDE")))
      ∧ attrGet sampleC10mp "crc" = some "X123"
      ∧ PyVal.vStr (some "OVERRIDE") ≠ PyVal.vStr (some "X123") :=
  ⟨⟨_, rfl, rfl⟩, rfl, by decide⟩

end Mobilpy
